import Mathlib

/-!
Shallow embedding of the EcoShip shipping-quote backend (Python) and proofs
about its quote-generation pipeline: cost pricing, carbon accounting,
eco-efficiency scoring, delivery-date projection, route lookup and the
orchestrating pipeline.

Conventions of the embedding:
* Python floats are modelled as exact rationals (`ℚ`).  `round(x, n)` is
  modelled by `roundTo n` below; CPython rounds half-to-even on the binary
  float value, which agrees with exact-rational round-half-up at every input
  considered here (none sits on a half-boundary, and all quantities are far
  enough from decision boundaries that float error cannot flip them).
* Python dicts of reference data become association lists in insertion
  order, which is also Python's iteration order.
* Functions that `raise ValueError` become `Except String` values.
* `datetime` values are modelled by their proleptic-Gregorian ordinal
  (`ℤ`, as returned by Python's `date.toordinal`); `weekday()` of ordinal
  `d` is `(d - 1) % 7` with Monday = 0, since ordinal 1 is a Monday.
-/

namespace EcoShip

/-- Rounding a rational to `n` decimal places, modelling Python's
`round(x, n)` away from half-boundaries. -/
def roundTo (n : ℕ) (x : ℚ) : ℚ := (round (x * 10 ^ n) : ℚ) / 10 ^ n

/-- Containment of `pat` as a contiguous substring of a character list:
the meaning of Python's `pat in s` on strings. -/
def charsInfix (pat : List Char) : List Char → Bool
  | [] => pat.isEmpty
  | b :: bs => pat.isPrefixOf (b :: bs) || charsInfix pat bs

/-- Python's substring test `pat in s`. -/
def hasSubstr (s pat : String) : Bool := charsInfix pat.data s.data

/-- Python dict access `d.get(k)` / `d[k]` on an association list (first
binding wins, as keys are unique in the sources). -/
def dictGet {α : Type} (k : String) : List (String × α) → Option α
  | [] => none
  | (k', v) :: rest => if k' = k then some v else dictGet k rest

/-- Python's `str.startswith`. -/
def strStartsWith (s pat : String) : Bool := pat.data.isPrefixOf s.data

/-- ASCII lower-casing of one character (the catalog strings are ASCII, so
this matches Python's `str.lower` on every string compared here). -/
def charLower (c : Char) : Char :=
  if 'A' ≤ c ∧ c ≤ 'Z' then Char.ofNat (c.toNat + 32) else c

/-- Python's `str.lower` (ASCII). -/
def pyLower (s : String) : String := ⟨s.data.map charLower⟩

/-- ASCII upper-casing of one character. -/
def charUpper (c : Char) : Char :=
  if 'a' ≤ c ∧ c ≤ 'z' then Char.ofNat (c.toNat - 32) else c

/-- Python's `str.upper` (ASCII). -/
def pyUpper (s : String) : String := ⟨s.data.map charUpper⟩

/-- Python's whitespace class for `str.strip()`. -/
def isPySpace (c : Char) : Bool :=
  c == ' ' || c == '\t' || c == '\n' || c == '\r' || c == '\x0b' || c == '\x0c'

/-- Python's `str.strip()`. -/
def pyStrip (s : String) : String :=
  ⟨((s.data.dropWhile isPySpace).reverse.dropWhile isPySpace).reverse⟩

/-! ### Reference catalog: UPS service tiers (`services/ups_services.py`, `UPS_SERVICES`) -/

/-- One UPS service tier definition; the fields of the `UPS_SERVICES`
entries that the core pipeline reads. -/
structure ServiceData where
  name : String
  code : String
  commitment : String
  eta_hours : ℚ
  air_percentage : ℚ
  truck_percentage : ℚ
  base_cost_multiplier : ℚ
  priority_level : ℕ
deriving DecidableEq, Repr

def ups_next_day_air_early : ServiceData :=
  { name := "UPS Next Day Air Early", code := "14",
    commitment := "Next Business Day by 8:00 AM", eta_hours := 14,
    air_percentage := 95, truck_percentage := 5,
    base_cost_multiplier := 45/10, priority_level := 1 }

def ups_next_day_air : ServiceData :=
  { name := "UPS Next Day Air", code := "01",
    commitment := "Next Business Day by 10:30 AM", eta_hours := 16,
    air_percentage := 90, truck_percentage := 10,
    base_cost_multiplier := 38/10, priority_level := 2 }

def ups_next_day_air_saver : ServiceData :=
  { name := "UPS Next Day Air Saver", code := "13",
    commitment := "Next Business Day by 3:00 PM", eta_hours := 20,
    air_percentage := 85, truck_percentage := 15,
    base_cost_multiplier := 32/10, priority_level := 3 }

def ups_2nd_day_air : ServiceData :=
  { name := "UPS 2nd Day Air", code := "02",
    commitment := "2 Business Days by 10:30 AM", eta_hours := 40,
    air_percentage := 75, truck_percentage := 25,
    base_cost_multiplier := 21/10, priority_level := 4 }

def ups_3_day_select : ServiceData :=
  { name := "UPS 3-Day Select", code := "12",
    commitment := "3 Business Days by End of Day", eta_hours := 72,
    air_percentage := 40, truck_percentage := 60,
    base_cost_multiplier := 16/10, priority_level := 5 }

def ups_ground : ServiceData :=
  { name := "UPS Ground", code := "03",
    commitment := "1-5 Business Days", eta_hours := 120,
    air_percentage := 5, truck_percentage := 95,
    base_cost_multiplier := 1, priority_level := 6 }

/-- The `UPS_SERVICES` dict, in insertion order. -/
def UPS_SERVICES : List (String × ServiceData) :=
  [ ("UPS_NEXT_DAY_AIR_EARLY", ups_next_day_air_early),
    ("UPS_NEXT_DAY_AIR", ups_next_day_air),
    ("UPS_NEXT_DAY_AIR_SAVER", ups_next_day_air_saver),
    ("UPS_2ND_DAY_AIR", ups_2nd_day_air),
    ("UPS_3_DAY_SELECT", ups_3_day_select),
    ("UPS_GROUND", ups_ground) ]

/-! ### Eco-efficiency scorer (`utils/eco_efficiency_scorer.py`) -/

/-- The per-tier business adjustment chosen by the `if/elif` chain in
`EcoEfficiencyScorer._apply_business_logic`, dispatching on substring
containment in the quote's `service_name` (in source order: the
`"Next Day Air Saver"` arm sits after the `"Next Day Air" and not "Early"`
arm). -/
def adjustment (service_name : String) : ℚ :=
  if hasSubstr service_name "Next Day Air Early" then -15/100
  else if hasSubstr service_name "Next Day Air" && !hasSubstr service_name "Early" then -8/100
  else if hasSubstr service_name "Next Day Air Saver" then 25/100
  else if hasSubstr service_name "2nd Day Air" then 28/100
  else if hasSubstr service_name "3-Day Select" then 30/100
  else if hasSubstr service_name "Ground" then 32/100
  else 0

/-- `EcoEfficiencyScorer._apply_business_logic`: weighted base score
(70 % cost, 30 % environment), per-tier adjustment, then scaling to the
0-25 range with clamping.  (The `eta_hours` read in the source is never
used.) -/
def apply_business_logic (service_name : String) (cost_score env_score : ℚ) : ℚ :=
  let base_score := cost_score * (70/100) + env_score * (30/100)
  let adjusted_score := base_score * (1 + adjustment service_name)
  max 0 (min 25 (adjusted_score * 25))

/-- `EcoEfficiencyScorer._determine_tier`: first entry of `TIER_RANGES`
(in insertion order) whose inclusive `(min_points, max_points)` range
contains the score, else `"unranked"`. -/
def determine_tier (score : ℚ) : String :=
  if 21 ≤ score ∧ score ≤ 25 then "excellent"
  else if 17 ≤ score ∧ score ≤ 20 then "very_good"
  else if 13 ≤ score ∧ score ≤ 16 then "good"
  else if 9 ≤ score ∧ score ≤ 12 then "fair"
  else if 5 ≤ score ∧ score ≤ 8 then "poor"
  else if 0 ≤ score ∧ score ≤ 4 then "very_poor"
  else "unranked"

lemma adjustment_early : adjustment "UPS Next Day Air Early" = -15/100 := by
  unfold adjustment; rw [if_pos (by decide)]

lemma adjustment_nda : adjustment "UPS Next Day Air" = -8/100 := by
  unfold adjustment; rw [if_neg (by decide), if_pos (by decide)]

lemma adjustment_saver : adjustment "UPS Next Day Air Saver" = -8/100 := by
  unfold adjustment; rw [if_neg (by decide), if_pos (by decide)]

lemma adjustment_2nd : adjustment "UPS 2nd Day Air" = 28/100 := by
  unfold adjustment
  rw [if_neg (by decide), if_neg (by decide), if_neg (by decide), if_pos (by decide)]

lemma adjustment_3day : adjustment "UPS 3-Day Select" = 30/100 := by
  unfold adjustment
  rw [if_neg (by decide), if_neg (by decide), if_neg (by decide), if_neg (by decide),
    if_pos (by decide)]

lemma adjustment_ground : adjustment "UPS Ground" = 32/100 := by
  unfold adjustment
  rw [if_neg (by decide), if_neg (by decide), if_neg (by decide), if_neg (by decide),
    if_neg (by decide), if_pos (by decide)]

/-- C1.  The claim reads the `elif "Next Day Air Saver"` arm as reachable
and assigns Saver +25 %; but every name containing `"Next Day Air Saver"`
also contains `"Next Day Air"` without `"Early"`, so the earlier arm fires
and `UPS Next Day Air Saver` is adjusted by −8 %, not +25 %: its adjusted
score is base×0.92.  Concretely, with both component scores equal to 1 the
base is 1 and the final score is 23 (= 0.92×25), not the clamp of 1.25×25.
The remaining per-tier adjustments do match the claim. -/
theorem saver_adjustment_dead_branch :
    adjustment "UPS Next Day Air Early" = -15/100 ∧
    adjustment "UPS Next Day Air" = -8/100 ∧
    adjustment "UPS Next Day Air Saver" = -8/100 ∧
    adjustment "UPS Next Day Air Saver" ≠ 25/100 ∧
    adjustment "UPS 2nd Day Air" = 28/100 ∧
    adjustment "UPS 3-Day Select" = 30/100 ∧
    adjustment "UPS Ground" = 32/100 ∧
    apply_business_logic "UPS Next Day Air Saver" 1 1 = 23 := by
  refine ⟨adjustment_early, adjustment_nda, adjustment_saver,
    by rw [adjustment_saver]; norm_num, adjustment_2nd, adjustment_3day, adjustment_ground, ?_⟩
  unfold apply_business_logic
  rw [adjustment_saver]
  norm_num [min_def, max_def]

/-- C2, counterexample.  The fixed bands of `TIER_RANGES` have gaps: the
score 20.5 lies in [0,25] but in no band, so `_determine_tier` labels it
`"unranked"`, which is none of the six claimed labels. -/
theorem determine_tier_gap_counterexample :
    determine_tier (41/2) = "unranked" ∧
    "unranked" ∉ ["excellent", "very_good", "good", "fair", "poor", "very_poor"] := by
  constructor
  · unfold determine_tier
    norm_num
  · decide

/-- Modelled from the claim, amended: the label of a score is the band of
`TIER_RANGES` containing it, and scores in the open gaps between the
integer-endpoint bands — (4,5), (8,9), (12,13), (16,17), (20,21) — or
outside [0,25] receive the label `"unranked"`. -/
def claimed_tier (s : ℚ) : String :=
  if s < 0 ∨ 25 < s then "unranked"
  else if s ≤ 4 then "very_poor"
  else if s < 5 then "unranked"
  else if s ≤ 8 then "poor"
  else if s < 9 then "unranked"
  else if s ≤ 12 then "fair"
  else if s < 13 then "unranked"
  else if s ≤ 16 then "good"
  else if s < 17 then "unranked"
  else if s ≤ 20 then "very_good"
  else if s < 21 then "unranked"
  else "excellent"

set_option maxHeartbeats 2000000 in
/-- C2, amended.  `_determine_tier` labels every score with the band
containing it when one exists, and with `"unranked"` on the open gaps
between bands and outside [0,25]. -/
theorem determine_tier_bands (s : ℚ) : determine_tier s = claimed_tier s := by
  unfold claimed_tier
  split_ifs <;>
    unfold determine_tier <;>
    split_ifs <;>
    first
      | rfl
      | (exfalso
         simp only [not_and_or, not_or, not_lt, not_le] at *
         casesm* _ ∨ _, _ ∧ _ <;> linarith)

/-! ### Delivery dates (`utils/delivery_calculator.py`)

Dates are proleptic-Gregorian ordinals (`ℤ`); `weekday d = (d - 1) % 7`
with Monday = 0, matching Python's `date.weekday` on `date.toordinal`. -/

/-- `BusinessDayCalculator.is_business_day`: Monday (0) through Friday (4). -/
def is_business_day (d : ℤ) : Bool := decide ((d - 1) % 7 < 5)

/-- The advance performed by one iteration block of the `while` loop in
`BusinessDayCalculator.add_business_days`: step forward one day at a time
until a business day is hit.  A weekend is at most two consecutive days,
so the first business day strictly after `d` is `d + 1`, `d + 2` or
`d + 3`. -/
def next_business_step (d : ℤ) : ℤ :=
  if is_business_day (d + 1) then d + 1
  else if is_business_day (d + 2) then d + 2
  else d + 3

/-- `BusinessDayCalculator.add_business_days`: advance to the next business
day, `business_days` times. -/
def add_business_days (start_date : ℤ) : ℕ → ℤ
  | 0 => start_date
  | n + 1 => add_business_days (next_business_step start_date) n

/-- `BusinessDayCalculator.ensure_business_day`: a weekend date advances by
`7 - weekday` days, landing on the following Monday. -/
def ensure_business_day (d : ℤ) : ℤ :=
  if is_business_day d then d else d + (7 - (d - 1) % 7)

/-- `DeliveryDateCalculator.SERVICE_BUSINESS_DAYS`. -/
def SERVICE_BUSINESS_DAYS : List (String × ℕ) :=
  [ ("UPS_NEXT_DAY_AIR_EARLY", 1),
    ("UPS_NEXT_DAY_AIR", 1),
    ("UPS_NEXT_DAY_AIR_SAVER", 1),
    ("UPS_2ND_DAY_AIR", 2),
    ("UPS_3_DAY_SELECT", 3),
    ("UPS_GROUND", 3) ]

/-- `DeliveryDateCalculator.calculate_delivery_date` (the date component;
the human-readable string is presentation only).  The ship date is an
explicit argument; the Python default `datetime.now()` is outside the
model.  Unknown service keys fall back to `.get(service_key, 3)`. -/
def calculate_delivery_date (service_key : String) (ship_date : ℤ) : ℤ :=
  add_business_days (ensure_business_day ship_date)
    ((dictGet service_key SERVICE_BUSINESS_DAYS).getD 3)

/-- Modelled from the spec: the effective ship date is the ship date itself
on Monday through Friday, and the following Monday when the ship date is a
Saturday (weekday 5, +2 days) or Sunday (weekday 6, +1 day). -/
def spec_effective_ship_date (d : ℤ) : ℤ :=
  if (d - 1) % 7 = 5 then d + 2
  else if (d - 1) % 7 = 6 then d + 1
  else d

/-- Modelled from the claim: the fixed business-day count per tier — 1 for
the three next-day tiers, 2 for 2nd Day Air, 3 for 3-Day Select and
Ground. -/
def claimed_business_days (key : String) : ℕ :=
  if key = "UPS_NEXT_DAY_AIR_EARLY" ∨ key = "UPS_NEXT_DAY_AIR" ∨
      key = "UPS_NEXT_DAY_AIR_SAVER" then 1
  else if key = "UPS_2ND_DAY_AIR" then 2
  else 3

lemma ensure_business_day_eq_spec (d : ℤ) :
    ensure_business_day d = spec_effective_ship_date d := by
  unfold ensure_business_day spec_effective_ship_date is_business_day
  split_ifs with h1 h2 h3 <;> simp only [decide_eq_true_eq] at h1 <;> omega

lemma next_business_step_is_business (d : ℤ) :
    is_business_day (next_business_step d) = true := by
  unfold next_business_step is_business_day
  split_ifs with h1 h2 <;> simp only [decide_eq_true_eq] at * <;> omega

lemma add_business_days_business (d : ℤ) (n : ℕ) (h : 1 ≤ n) :
    is_business_day (add_business_days d n) = true := by
  induction n generalizing d with
  | zero => omega
  | succ m ih =>
    cases m with
    | zero => simpa [add_business_days] using next_business_step_is_business d
    | succ k =>
      rw [add_business_days]
      exact ih _ (by omega)

lemma dictGet_eq_none {α : Type} (k : String) (l : List (String × α))
    (h : k ∉ l.map Prod.fst) : dictGet k l = none := by
  induction l with
  | nil => rfl
  | cons p t ih =>
    obtain ⟨k', v⟩ := p
    simp only [List.map_cons, List.mem_cons] at h
    push_neg at h
    unfold dictGet
    rw [if_neg fun hh => h.1 hh.symm]
    exact ih h.2

/-- C7.  For every tier and ship date, the delivery date is the effective
ship date (the ship date on Mon-Fri, else the following Monday) advanced
by the tier's fixed business-day count (1/1/1/2/3/3), counting Monday
through Friday only, and it never falls on a Saturday or Sunday. -/
theorem delivery_date_spec (key : String) (ship : ℤ)
    (h : key ∈ SERVICE_BUSINESS_DAYS.map Prod.fst) :
    calculate_delivery_date key ship =
      add_business_days (spec_effective_ship_date ship) (claimed_business_days key) ∧
    is_business_day (calculate_delivery_date key ship) = true := by
  have hb : (dictGet key SERVICE_BUSINESS_DAYS).getD 3 = claimed_business_days key ∧
      1 ≤ (dictGet key SERVICE_BUSINESS_DAYS).getD 3 := by
    fin_cases h <;> exact ⟨by decide, by decide⟩
  constructor
  · unfold calculate_delivery_date
    rw [ensure_business_day_eq_spec, hb.1]
  · unfold calculate_delivery_date
    exact add_business_days_business _ _ hb.2

/-- Witness for C7 at tier `UPS_GROUND` and ship date ordinal 738886. -/
theorem delivery_date_spec_witness :
    "UPS_GROUND" ∈ SERVICE_BUSINESS_DAYS.map Prod.fst ∧
    (calculate_delivery_date "UPS_GROUND" 738886 =
       add_business_days (spec_effective_ship_date 738886)
         (claimed_business_days "UPS_GROUND") ∧
     is_business_day (calculate_delivery_date "UPS_GROUND" 738886) = true) :=
  ⟨by decide, delivery_date_spec "UPS_GROUND" 738886 (by decide)⟩

/-- C10.  `calculate_delivery_date` is total in the service key: any key
outside the six known tiers silently defaults to 3 business days beyond
the effective ship date. -/
theorem delivery_date_unknown_key (key : String) (ship : ℤ)
    (h : key ∉ SERVICE_BUSINESS_DAYS.map Prod.fst) :
    calculate_delivery_date key ship =
      add_business_days (spec_effective_ship_date ship) 3 := by
  unfold calculate_delivery_date
  rw [ensure_business_day_eq_spec, dictGet_eq_none key SERVICE_BUSINESS_DAYS h]
  rfl

/-- Witness for C10 at the unknown key `"UPS_STANDARD"`. -/
theorem delivery_date_unknown_key_witness :
    "UPS_STANDARD" ∉ SERVICE_BUSINESS_DAYS.map Prod.fst ∧
    calculate_delivery_date "UPS_STANDARD" 738886 =
      add_business_days (spec_effective_ship_date 738886) 3 :=
  ⟨by decide, delivery_date_unknown_key "UPS_STANDARD" 738886 (by decide)⟩

/-! ### Reference catalog: routes and weight bands (`services/ups_services.py`) -/

/-- A city descriptor, as in the `origin`/`destination` sub-dicts of
`DEMO_ROUTES`. -/
structure Location where
  city : String
  state : String
  zip_code : String
deriving DecidableEq, Repr

/-- One `DEMO_ROUTES` entry; the fields the core pipeline reads
(`estimated_ground_days`, `major_hubs` and `description` are
presentation-only and not modelled).  `is_fallback` is absent from catalog
entries and read with `.get("is_fallback", False)`, hence the default. -/
structure RouteData where
  origin : Location
  destination : Location
  air_distance_km : ℚ
  ground_distance_km : ℚ
  base_cost_per_kg : ℚ
  route_complexity : String
  is_fallback : Bool := false
deriving DecidableEq, Repr

/-- The `DEMO_ROUTES` dict, in insertion order. -/
def DEMO_ROUTES : List (String × RouteData) :=
  [ ("NYC_LA",
     { origin := ⟨"New York", "NY", "10001"⟩, destination := ⟨"Los Angeles", "CA", "90210"⟩,
       air_distance_km := 3944, ground_distance_km := 4501,
       base_cost_per_kg := 850/100, route_complexity := "complex" }),
    ("SF_CHICAGO",
     { origin := ⟨"San Francisco", "CA", "94102"⟩, destination := ⟨"Chicago", "IL", "60601"⟩,
       air_distance_km := 2960, ground_distance_km := 3420,
       base_cost_per_kg := 725/100, route_complexity := "moderate" }),
    ("MIAMI_SEATTLE",
     { origin := ⟨"Miami", "FL", "33101"⟩, destination := ⟨"Seattle", "WA", "98101"⟩,
       air_distance_km := 4308, ground_distance_km := 5145,
       base_cost_per_kg := 975/100, route_complexity := "complex" }),
    ("BOSTON_DALLAS",
     { origin := ⟨"Boston", "MA", "02101"⟩, destination := ⟨"Dallas", "TX", "75201"⟩,
       air_distance_km := 2563, ground_distance_km := 3089,
       base_cost_per_kg := 680/100, route_complexity := "moderate" }),
    ("DENVER_ATLANTA",
     { origin := ⟨"Denver", "CO", "80202"⟩, destination := ⟨"Atlanta", "GA", "30303"⟩,
       air_distance_km := 1770, ground_distance_km := 2092,
       base_cost_per_kg := 590/100, route_complexity := "simple" }),
    ("PHOENIX_DETROIT",
     { origin := ⟨"Phoenix", "AZ", "85001"⟩, destination := ⟨"Detroit", "MI", "48201"⟩,
       air_distance_km := 2570, ground_distance_km := 2890,
       base_cost_per_kg := 710/100, route_complexity := "moderate" }),
    ("PORTLAND_HOUSTON",
     { origin := ⟨"Portland", "OR", "97201"⟩, destination := ⟨"Houston", "TX", "77001"⟩,
       air_distance_km := 2890, ground_distance_km := 3420,
       base_cost_per_kg := 780/100, route_complexity := "moderate" }),
    ("ORLANDO_MINNEAPOLIS",
     { origin := ⟨"Orlando", "FL", "32801"⟩, destination := ⟨"Minneapolis", "MN", "55401"⟩,
       air_distance_km := 1890, ground_distance_km := 2245,
       base_cost_per_kg := 620/100, route_complexity := "simple" }),
    ("SALT_LAKE_CITY_PHILADELPHIA",
     { origin := ⟨"Salt Lake City", "UT", "84101"⟩, destination := ⟨"Philadelphia", "PA", "19101"⟩,
       air_distance_km := 2890, ground_distance_km := 3380,
       base_cost_per_kg := 760/100, route_complexity := "moderate" }),
    ("NASHVILLE_SAN_DIEGO",
     { origin := ⟨"Nashville", "TN", "37201"⟩, destination := ⟨"San Diego", "CA", "92101"⟩,
       air_distance_km := 2780, ground_distance_km := 3290,
       base_cost_per_kg := 740/100, route_complexity := "moderate" }),
    ("CHARLOTTE_KANSAS_CITY",
     { origin := ⟨"Charlotte", "NC", "28201"⟩, destination := ⟨"Kansas City", "MO", "64101"⟩,
       air_distance_km := 1120, ground_distance_km := 1340,
       base_cost_per_kg := 480/100, route_complexity := "simple" }),
    ("SACRAMENTO_MEMPHIS",
     { origin := ⟨"Sacramento", "CA", "95814"⟩, destination := ⟨"Memphis", "TN", "38101"⟩,
       air_distance_km := 2650, ground_distance_km := 3120,
       base_cost_per_kg := 720/100, route_complexity := "moderate" }),
    ("BUFFALO_ALBUQUERQUE",
     { origin := ⟨"Buffalo", "NY", "14201"⟩, destination := ⟨"Albuquerque", "NM", "87101"⟩,
       air_distance_km := 2420, ground_distance_km := 2890,
       base_cost_per_kg := 690/100, route_complexity := "moderate" }),
    ("RICHMOND_MILWAUKEE",
     { origin := ⟨"Richmond", "VA", "23219"⟩, destination := ⟨"Milwaukee", "WI", "53201"⟩,
       air_distance_km := 1180, ground_distance_km := 1420,
       base_cost_per_kg := 510/100, route_complexity := "simple" }),
    ("TUCSON_COLUMBUS",
     { origin := ⟨"Tucson", "AZ", "85701"⟩, destination := ⟨"Columbus", "OH", "43215"⟩,
       air_distance_km := 2340, ground_distance_km := 2780,
       base_cost_per_kg := 670/100, route_complexity := "moderate" }) ]

/-- The `WeightCategory` enum of `models/shipping.py`. -/
inductive WeightCategory where
  | envelope | small | medium | large
deriving DecidableEq, Repr

/-- One `WEIGHT_CATEGORIES` entry; the fields the pipeline reads
(`typical_weight_kg`, `dimensions_cm`, `description` are unused). -/
structure CategoryData where
  max_weight_kg : ℚ
  cost_adjustment : ℚ
deriving DecidableEq, Repr

/-- The `WEIGHT_CATEGORIES` dict, in insertion order (ascending max
weight). -/
def WEIGHT_CATEGORIES : List (WeightCategory × CategoryData) :=
  [ (.envelope, ⟨1/2, 8/10⟩),
    (.small, ⟨2, 9/10⟩),
    (.medium, ⟨10, 1⟩),
    (.large, ⟨70, 12/10⟩) ]

/-- `UPSDataLookup.get_weight_category_for_weight`: first category (in
dict order) whose inclusive max weight covers the weight, defaulting to
`LARGE`. -/
def get_weight_category_for_weight (w : ℚ) : WeightCategory :=
  match WEIGHT_CATEGORIES.find? (fun p => decide (w ≤ p.2.max_weight_kg)) with
  | some p => p.1
  | none => .large

/-- The dict access `WEIGHT_CATEGORIES[weight_category]`; total because
every category has an entry (the `getD` default is never reached). -/
def category_data (c : WeightCategory) : CategoryData :=
  ((WEIGHT_CATEGORIES.find? (fun p => decide (p.1 = c))).map Prod.snd).getD ⟨0, 0⟩

/-! ### Cost engine (`services/quote_generator.py`, `ShippingCostCalculator`) -/

/-- `PricingFactors.PREMIUM_MULTIPLIERS`. -/
def PREMIUM_MULTIPLIERS : List (String × ℚ) :=
  [ ("UPS_NEXT_DAY_AIR_EARLY", 115/100),
    ("UPS_NEXT_DAY_AIR", 105/100),
    ("UPS_NEXT_DAY_AIR_SAVER", 1),
    ("UPS_2ND_DAY_AIR", 95/100),
    ("UPS_3_DAY_SELECT", 90/100),
    ("UPS_GROUND", 85/100) ]

/-- `PricingFactors.MINIMUM_COSTS`. -/
def MINIMUM_COSTS : List (String × ℚ) :=
  [ ("UPS_NEXT_DAY_AIR_EARLY", 95),
    ("UPS_NEXT_DAY_AIR", 75),
    ("UPS_NEXT_DAY_AIR_SAVER", 65),
    ("UPS_2ND_DAY_AIR", 35),
    ("UPS_3_DAY_SELECT", 25),
    ("UPS_GROUND", 15) ]

/-- `ShippingCostCalculator._get_distance_multiplier` with the thresholds
1000 km / 3000 km. -/
def get_distance_multiplier (distance_km : ℚ) : ℚ :=
  if distance_km < 1000 then 8/10
  else if distance_km > 3000 then 13/10
  else 1

/-- `ShippingCostCalculator.calculate_shipping_cost`: base cost from
weight, route base cost/kg and service multiplier; distance multiplier;
weight-category adjustment; 12.5 % fuel surcharge; service premium;
minimum-cost floor; rounded to cents. -/
def calculate_shipping_cost (route_data : RouteData) (weight_kg : ℚ)
    (service_data : ServiceData) (service_key : String) : ℚ :=
  let base_cost_per_kg := route_data.base_cost_per_kg
  let service_multiplier := service_data.base_cost_multiplier
  let distance_km := max route_data.air_distance_km route_data.ground_distance_km
  let base0 := weight_kg * base_cost_per_kg * service_multiplier
  let base1 := base0 * get_distance_multiplier distance_km
  let base2 := base1 * (category_data (get_weight_category_for_weight weight_kg)).cost_adjustment
  let fuel_surcharge := base2 * (125/10 / 100)
  let base3 := base2 + fuel_surcharge
  let final_cost := base3 * ((dictGet service_key PREMIUM_MULTIPLIERS).getD 1)
  let final_cost2 := max final_cost ((dictGet service_key MINIMUM_COSTS).getD 15)
  roundTo 2 final_cost2

/-- Modelled from the claim: the weight-band cost adjustment of the first
band, in ascending order of inclusive max weight, that covers the weight.
Weights beyond every band are outside the claim's (0,70] scope; the value
0 there marks them unspecified. -/
def claimed_band_adjustment (w : ℚ) : ℚ :=
  if w ≤ 1/2 then 8/10
  else if w ≤ 2 then 9/10
  else if w ≤ 10 then 1
  else if w ≤ 70 then 12/10
  else 0

/-- Modelled from the claim: the closed-form price
`round(max(w × bcpk × tier_mult × m(d) × band_adj × 1.125 × premium, floor), 2)`
with `d = max(air_km, ground_km)` and `m(d)` the 0.8 / 1.0 / 1.3 distance
multiplier. -/
def claimed_cost (route : RouteData) (w : ℚ) (svc : ServiceData) (key : String) : ℚ :=
  let d := max route.air_distance_km route.ground_distance_km
  let m : ℚ := if d < 1000 then 8/10 else if d > 3000 then 13/10 else 1
  roundTo 2 (max (w * route.base_cost_per_kg * svc.base_cost_multiplier * m *
      claimed_band_adjustment w * (1125/1000) *
      ((dictGet key PREMIUM_MULTIPLIERS).getD 1))
    ((dictGet key MINIMUM_COSTS).getD 15))

lemma find_band_envelope (w : ℚ) (h1 : w ≤ 1/2) :
    get_weight_category_for_weight w = .envelope := by
  unfold get_weight_category_for_weight WEIGHT_CATEGORIES
  simp only [List.find?_cons, decide_eq_true h1]

lemma find_band_small (w : ℚ) (h1 : ¬w ≤ 1/2) (h2 : w ≤ 2) :
    get_weight_category_for_weight w = .small := by
  unfold get_weight_category_for_weight WEIGHT_CATEGORIES
  simp only [List.find?_cons, decide_eq_false h1, decide_eq_true h2]

lemma find_band_medium (w : ℚ) (h1 : ¬w ≤ 1/2) (h2 : ¬w ≤ 2) (h3 : w ≤ 10) :
    get_weight_category_for_weight w = .medium := by
  unfold get_weight_category_for_weight WEIGHT_CATEGORIES
  simp only [List.find?_cons, decide_eq_false h1, decide_eq_false h2, decide_eq_true h3]

lemma find_band_large (w : ℚ) (h1 : ¬w ≤ 1/2) (h2 : ¬w ≤ 2) (h3 : ¬w ≤ 10) (h4 : w ≤ 70) :
    get_weight_category_for_weight w = .large := by
  unfold get_weight_category_for_weight WEIGHT_CATEGORIES
  simp only [List.find?_cons, decide_eq_false h1, decide_eq_false h2, decide_eq_false h3,
    decide_eq_true h4]

lemma band_eq (w : ℚ) (hw : w ≤ 70) :
    (category_data (get_weight_category_for_weight w)).cost_adjustment =
      claimed_band_adjustment w := by
  unfold claimed_band_adjustment
  by_cases h1 : w ≤ 1/2
  · rw [find_band_envelope w h1, if_pos h1]; rfl
  · by_cases h2 : w ≤ 2
    · rw [find_band_small w h1 h2, if_neg h1, if_pos h2]; rfl
    · by_cases h3 : w ≤ 10
      · rw [find_band_medium w h1 h2 h3, if_neg h1, if_neg h2, if_pos h3]; rfl
      · rw [find_band_large w h1 h2 h3 hw, if_neg h1, if_neg h2, if_neg h3, if_pos hw]; rfl

/-- C4.  For every route, weight in (0,70], tier data and tier key, the
computed price is the claim's closed form: the rounded maximum of the
tier minimum floor and the product of weight, base cost/kg, tier
multiplier, distance multiplier, first-matching weight-band adjustment,
fuel factor 1.125 and tier premium. -/
theorem calculate_shipping_cost_spec (route : RouteData) (w : ℚ)
    (svc : ServiceData) (key : String) (hw0 : 0 < w) (hw70 : w ≤ 70) :
    calculate_shipping_cost route w svc key = claimed_cost route w svc key := by
  simp only [calculate_shipping_cost, claimed_cost, get_distance_multiplier]
  rw [band_eq w hw70]
  congr 1
  congr 1
  ring

/-- Witness for C4: the NYC-LA route data, weight 5 kg, tier UPS Ground. -/
theorem calculate_shipping_cost_spec_witness :
    (0:ℚ) < 5 ∧ (5:ℚ) ≤ 70 ∧
    calculate_shipping_cost
        { origin := ⟨"New York", "NY", "10001"⟩,
          destination := ⟨"Los Angeles", "CA", "90210"⟩,
          air_distance_km := 3944, ground_distance_km := 4501,
          base_cost_per_kg := 850/100, route_complexity := "complex" }
        5 ups_ground "UPS_GROUND" =
      claimed_cost
        { origin := ⟨"New York", "NY", "10001"⟩,
          destination := ⟨"Los Angeles", "CA", "90210"⟩,
          air_distance_km := 3944, ground_distance_km := 4501,
          base_cost_per_kg := 850/100, route_complexity := "complex" }
        5 ups_ground "UPS_GROUND" :=
  ⟨by norm_num, by norm_num,
    calculate_shipping_cost_spec _ 5 ups_ground "UPS_GROUND" (by norm_num) (by norm_num)⟩

/-! ### Carbon engine (`utils/carbon_calculator.py`, `CarbonCalculator`) -/

/-- `CarbonBreakdown` dataclass. -/
structure CarbonBreakdown where
  total_co2_kg : ℚ
  air_transport_co2_kg : ℚ
  truck_transport_co2_kg : ℚ
  air_tkm : ℚ
  truck_tkm : ℚ
  trees_offset_equivalent : ℚ
  car_miles_equivalent : ℚ
  service_name : String
  route_key : String
  weight_kg : ℚ
  co2_per_kg : ℚ
  co2_per_km : ℚ
deriving DecidableEq, Repr

/-- `CarbonCalculator._get_service_efficiency_factor`: ground services get
the 0.85 factor, express/next-day/early services 1.10, others 1.0, by
substring dispatch on the lower-cased service name. -/
def get_service_efficiency_factor (svc : ServiceData) : ℚ :=
  if hasSubstr (pyLower svc.name) "ground" then 85/100
  else if hasSubstr (pyLower svc.name) "next day" || hasSubstr (pyLower svc.name) "early" ||
      hasSubstr (pyLower svc.name) "express" then 110/100
  else 1

/-- Catalog-wide mean air distance, used for `FALLBACK_*` route keys in
`calculate_carbon_footprint`. -/
def fallback_avg_air : ℚ :=
  (DEMO_ROUTES.map (fun p => p.2.air_distance_km)).sum / (DEMO_ROUTES.length : ℚ)

/-- Catalog-wide mean ground distance (as above). -/
def fallback_avg_ground : ℚ :=
  (DEMO_ROUTES.map (fun p => p.2.ground_distance_km)).sum / (DEMO_ROUTES.length : ℚ)

/-- Route resolution inside `calculate_carbon_footprint`: `DEMO_ROUTES`
lookup first, then the catalog-average fallback for keys starting with
`"FALLBACK_"`, else failure (`None`). -/
def resolved_distances (route_key : String) : Option (ℚ × ℚ) :=
  match dictGet route_key DEMO_ROUTES with
  | some r => some (r.air_distance_km, r.ground_distance_km)
  | none =>
    if strStartsWith route_key "FALLBACK_" then some (fallback_avg_air, fallback_avg_ground)
    else none

/-- The computation body of `CarbonCalculator.calculate_carbon_footprint`
after route resolution: tonne-kilometres per mode, emission factors
0.570 / 0.150 kg CO2e per tonne-km, ground-leg efficiency factor,
contextual equivalents, and the final rounding of each field. -/
def carbon_breakdown_core (air ground : ℚ) (route_key : String) (w : ℚ)
    (svc : ServiceData) : CarbonBreakdown :=
  let weight_tonnes := w / 1000
  let air_tkm := air * svc.air_percentage / 100 * weight_tonnes
  let truck_tkm := ground * svc.truck_percentage / 100 * weight_tonnes
  let efficiency_factor := get_service_efficiency_factor svc
  let air_co2_kg := air_tkm * (570/1000)
  let truck_co2_kg := truck_tkm * (150/1000) * efficiency_factor
  let total_co2_kg := air_co2_kg + truck_co2_kg
  let trees_equivalent := total_co2_kg / 21
  let car_miles_equivalent := total_co2_kg / (411/1000)
  let total_distance_km := max air ground
  let co2_per_kg := if 0 < w then total_co2_kg / w else 0
  let co2_per_km := if 0 < total_distance_km then total_co2_kg / total_distance_km else 0
  { total_co2_kg := roundTo 3 total_co2_kg,
    air_transport_co2_kg := roundTo 3 air_co2_kg,
    truck_transport_co2_kg := roundTo 3 truck_co2_kg,
    air_tkm := roundTo 3 air_tkm,
    truck_tkm := roundTo 3 truck_tkm,
    trees_offset_equivalent := roundTo 2 trees_equivalent,
    car_miles_equivalent := roundTo 1 car_miles_equivalent,
    service_name := svc.name,
    route_key := route_key,
    weight_kg := w,
    co2_per_kg := roundTo 4 co2_per_kg,
    co2_per_km := roundTo 4 co2_per_km }

/-- `CarbonCalculator.calculate_carbon_footprint`: validation
(non-empty route key, weight in (0,70]; the service-field checks hold
structurally for `ServiceData`), route resolution, then the core
computation. -/
def calculate_carbon_footprint (route_key : String) (w : ℚ)
    (svc : ServiceData) : Except String CarbonBreakdown :=
  if route_key = "" then .error "Route key must be a non-empty string"
  else if w ≤ 0 ∨ 70 < w then .error "Weight must be between 0 and 70 kg"
  else
    match resolved_distances route_key with
    | some (air, ground) => .ok (carbon_breakdown_core air ground route_key w svc)
    | none => .error "Route not found in available routes"

/-- Modelled from the spec: air tonne-kilometres
`lane.air_km × air_pct/100 × weight_tonnes`. -/
def spec_raw_air_tkm (air w : ℚ) (svc : ServiceData) : ℚ :=
  air * (svc.air_percentage / 100) * (w / 1000)

/-- Modelled from the spec: ground tonne-kilometres. -/
def spec_raw_truck_tkm (ground w : ℚ) (svc : ServiceData) : ℚ :=
  ground * (svc.truck_percentage / 100) * (w / 1000)

/-- Modelled from the spec: unrounded air-leg emissions at 0.570 kg/t-km. -/
def spec_raw_air_co2 (air w : ℚ) (svc : ServiceData) : ℚ :=
  spec_raw_air_tkm air w svc * (570/1000)

/-- Modelled from the spec: unrounded ground-leg emissions at 0.150
kg/t-km, scaled by the service-class efficiency multiplier (the ground leg
only). -/
def spec_raw_truck_co2 (ground w : ℚ) (svc : ServiceData) : ℚ :=
  spec_raw_truck_tkm ground w svc * (150/1000) * get_service_efficiency_factor svc

/-- Modelled from the spec: unrounded total emissions. -/
def spec_raw_total (air ground w : ℚ) (svc : ServiceData) : ℚ :=
  spec_raw_air_co2 air w svc + spec_raw_truck_co2 ground w svc

/-- C3, counterexample.  On route DENVER_ATLANTA at 4 kg with UPS Ground,
the unrounded car-miles equivalent is 2.9570657…; the breakdown stores 3.0
(one decimal, `round(car_miles_equivalent, 1)` in the source), whereas the
claim's two-decimal rounding would give 2.96. -/
theorem car_miles_one_decimal_counterexample :
    (calculate_carbon_footprint "DENVER_ATLANTA" 4 ups_ground).map
        (fun bd => bd.car_miles_equivalent) = .ok 3 ∧
    roundTo 2 (spec_raw_total 1770 2092 4 ups_ground / (411/1000)) = 296/100 ∧
    (3:ℚ) ≠ 296/100 := by
  have heff : get_service_efficiency_factor ups_ground = 85/100 := by
    have hn : pyLower ups_ground.name = "ups ground" := by decide
    unfold get_service_efficiency_factor
    rw [hn, if_pos (by decide)]
  have hair : ups_ground.air_percentage = 5 := rfl
  have htruck : ups_ground.truck_percentage = 95 := rfl
  refine ⟨?_, ?_, by norm_num⟩
  · have hres : resolved_distances "DENVER_ATLANTA" = some (1770, 2092) := by
      unfold resolved_distances DEMO_ROUTES
      simp [dictGet]
    have h : calculate_carbon_footprint "DENVER_ATLANTA" 4 ups_ground =
        .ok (carbon_breakdown_core 1770 2092 "DENVER_ATLANTA" 4 ups_ground) := by
      unfold calculate_carbon_footprint
      rw [if_neg (by decide), if_neg (by norm_num), hres]
    rw [h]
    simp only [Except.map, carbon_breakdown_core]
    rw [heff, hair, htruck]
    norm_num [roundTo, round_eq]
  · simp only [spec_raw_total, spec_raw_air_co2, spec_raw_truck_co2, spec_raw_air_tkm,
      spec_raw_truck_tkm, heff, hair, htruck]
    norm_num [roundTo, round_eq]

/-- C3, amended.  Every breakdown returned by `calculate_carbon_footprint`
carries the kg CO2 values and tonne-km values rounded to 3 decimals, the
ratios `co2_per_kg` and `co2_per_km` to 4 decimals,
`trees_offset_equivalent` to 2 decimals — and `car_miles_equivalent` to 1
decimal (not 2 as claimed). -/
theorem carbon_rounding (route_key : String) (w : ℚ) (svc : ServiceData)
    (air ground : ℚ) (hres : resolved_distances route_key = some (air, ground))
    (hk : route_key ≠ "") (hw : ¬(w ≤ 0 ∨ 70 < w)) :
    calculate_carbon_footprint route_key w svc =
      .ok { total_co2_kg := roundTo 3 (spec_raw_total air ground w svc),
            air_transport_co2_kg := roundTo 3 (spec_raw_air_co2 air w svc),
            truck_transport_co2_kg := roundTo 3 (spec_raw_truck_co2 ground w svc),
            air_tkm := roundTo 3 (spec_raw_air_tkm air w svc),
            truck_tkm := roundTo 3 (spec_raw_truck_tkm ground w svc),
            trees_offset_equivalent := roundTo 2 (spec_raw_total air ground w svc / 21),
            car_miles_equivalent := roundTo 1 (spec_raw_total air ground w svc / (411/1000)),
            service_name := svc.name,
            route_key := route_key,
            weight_kg := w,
            co2_per_kg := roundTo 4 (if 0 < w then spec_raw_total air ground w svc / w else 0),
            co2_per_km := roundTo 4 (if 0 < max air ground
              then spec_raw_total air ground w svc / max air ground else 0) } := by
  unfold calculate_carbon_footprint
  rw [if_neg hk, if_neg hw, hres]
  refine congrArg Except.ok ?_
  simp only [carbon_breakdown_core, spec_raw_total, spec_raw_air_co2, spec_raw_truck_co2,
    spec_raw_air_tkm, spec_raw_truck_tkm, CarbonBreakdown.mk.injEq]
  refine ⟨by ring_nf, by ring_nf, by ring_nf, by ring_nf, by ring_nf, by ring_nf, by ring_nf,
    trivial, trivial, trivial, ?_, ?_⟩ <;> (congr 1; split_ifs <;> first | rfl | ring)

/-- Witness for C3's amended theorem at route NYC_LA, 5 kg, UPS Ground. -/
theorem carbon_rounding_witness :
    resolved_distances "NYC_LA" = some (3944, 4501) ∧ "NYC_LA" ≠ "" ∧
    ¬((5:ℚ) ≤ 0 ∨ 70 < (5:ℚ)) ∧
    calculate_carbon_footprint "NYC_LA" 5 ups_ground =
      .ok { total_co2_kg := roundTo 3 (spec_raw_total 3944 4501 5 ups_ground),
            air_transport_co2_kg := roundTo 3 (spec_raw_air_co2 3944 5 ups_ground),
            truck_transport_co2_kg := roundTo 3 (spec_raw_truck_co2 4501 5 ups_ground),
            air_tkm := roundTo 3 (spec_raw_air_tkm 3944 5 ups_ground),
            truck_tkm := roundTo 3 (spec_raw_truck_tkm 4501 5 ups_ground),
            trees_offset_equivalent := roundTo 2 (spec_raw_total 3944 4501 5 ups_ground / 21),
            car_miles_equivalent :=
              roundTo 1 (spec_raw_total 3944 4501 5 ups_ground / (411/1000)),
            service_name := ups_ground.name,
            route_key := "NYC_LA",
            weight_kg := 5,
            co2_per_kg := roundTo 4 (if 0 < (5:ℚ)
              then spec_raw_total 3944 4501 5 ups_ground / 5 else 0),
            co2_per_km := roundTo 4 (if 0 < max (3944:ℚ) 4501
              then spec_raw_total 3944 4501 5 ups_ground / max (3944:ℚ) 4501 else 0) } := by
  have hres : resolved_distances "NYC_LA" = some (3944, 4501) := by
    unfold resolved_distances DEMO_ROUTES
    simp [dictGet]
  exact ⟨hres, by decide, by norm_num,
    carbon_rounding "NYC_LA" 5 ups_ground 3944 4501 hres (by decide) (by norm_num)⟩

/-! ### Route lookup (`services/quote_generator.py`, `RouteManager`, and
`UPSDataLookup.find_route_by_cities`) -/

/-- `UPSDataLookup.find_route_by_cities`: first catalog route whose origin
and destination city names match case-insensitively. -/
def find_route_by_cities (origin_city destination_city : String) :
    Option (String × RouteData) :=
  DEMO_ROUTES.find? (fun p =>
    pyLower p.2.origin.city == pyLower origin_city &&
    pyLower p.2.destination.city == pyLower destination_city)

/-- `RouteManager._swap_route_direction`: exchange the origin and
destination descriptors on a copy, all other fields unchanged. -/
def swap_route_direction (r : RouteData) : RouteData :=
  { r with origin := r.destination, destination := r.origin }

/-- `RouteManager.route_lookup`: direct match, else reversed-direction
match with swapped descriptors, else `None`. -/
def route_lookup (origin_city destination_city : String) :
    Option (String × RouteData) :=
  match find_route_by_cities origin_city destination_city with
  | some (k, r) => some (k, r)
  | none =>
    match find_route_by_cities destination_city origin_city with
    | some (k, r) => some (k, swap_route_direction r)
    | none => none

/-- The lower-cased destination cities of the catalog.  No catalog origin
city is also a destination city, which makes direct matches in both
directions impossible. -/
def catalog_dest_cities_lower : List String :=
  DEMO_ROUTES.map (fun p => pyLower p.2.destination.city)

lemma origin_never_dest :
    ∀ p ∈ DEMO_ROUTES, ∀ x ∈ catalog_dest_cities_lower,
      pyLower p.2.origin.city ≠ x := by decide

lemma find_dest_lower (A B : String) (k : String) (r : RouteData)
    (h : find_route_by_cities A B = some (k, r)) :
    pyLower B ∈ catalog_dest_cities_lower := by
  have hmem : (k, r) ∈ DEMO_ROUTES := List.mem_of_find?_eq_some h
  have hp := List.find?_some h
  simp only [Bool.and_eq_true, beq_iff_eq] at hp
  rw [← hp.2]
  exact List.mem_map_of_mem _ hmem

lemma find_none_of_dest (B A' : String)
    (hB : pyLower B ∈ catalog_dest_cities_lower) :
    find_route_by_cities B A' = none := by
  apply List.find?_eq_none.mpr
  intro p hp hpred
  simp only [Bool.and_eq_true, beq_iff_eq] at hpred
  exact origin_never_dest p hp (pyLower B) hB hpred.1

/-- C8.  Whenever the catalog holds a route between two cities in either
direction, looking the pair up in both orders yields the same route key
and route data with identical distances and base cost/kg, the origin and
destination descriptors swapped. -/
theorem route_lookup_symmetric (A B : String)
    (h : (find_route_by_cities A B).isSome ∨ (find_route_by_cities B A).isSome) :
    ∃ k r r', route_lookup A B = some (k, r) ∧ route_lookup B A = some (k, r') ∧
      r.air_distance_km = r'.air_distance_km ∧
      r.ground_distance_km = r'.ground_distance_km ∧
      r.base_cost_per_kg = r'.base_cost_per_kg ∧
      r.origin = r'.destination ∧ r.destination = r'.origin := by
  rcases h with h | h
  · obtain ⟨⟨k, r0⟩, hfind⟩ := Option.isSome_iff_exists.mp h
    have hrev : find_route_by_cities B A = none :=
      find_none_of_dest B A (find_dest_lower A B k r0 hfind)
    refine ⟨k, r0, swap_route_direction r0, ?_, ?_, rfl, rfl, rfl, rfl, rfl⟩
    · unfold route_lookup
      rw [hfind]
    · unfold route_lookup
      rw [hrev, hfind]
  · obtain ⟨⟨k, r0⟩, hfind⟩ := Option.isSome_iff_exists.mp h
    have hrev : find_route_by_cities A B = none :=
      find_none_of_dest A B (find_dest_lower B A k r0 hfind)
    refine ⟨k, swap_route_direction r0, r0, ?_, ?_, rfl, rfl, rfl, rfl, rfl⟩
    · unfold route_lookup
      rw [hrev, hfind]
    · unfold route_lookup
      rw [hfind]

/-- Witness for C8 at the catalog pair New York / Los Angeles. -/
theorem route_lookup_symmetric_witness :
    ((find_route_by_cities "New York" "Los Angeles").isSome ∨
      (find_route_by_cities "Los Angeles" "New York").isSome) ∧
    (∃ k r r', route_lookup "New York" "Los Angeles" = some (k, r) ∧
      route_lookup "Los Angeles" "New York" = some (k, r') ∧
      r.air_distance_km = r'.air_distance_km ∧
      r.ground_distance_km = r'.ground_distance_km ∧
      r.base_cost_per_kg = r'.base_cost_per_kg ∧
      r.origin = r'.destination ∧ r.destination = r'.origin) :=
  ⟨Or.inl (by decide), route_lookup_symmetric "New York" "Los Angeles" (Or.inl (by decide))⟩

/-! ### Quote pipeline (`services/quote_generator.py`, `QuoteGenerator`) -/

/-- Whether an `Except` result is a success (Python: no exception was
raised). -/
def except_is_ok {ε α : Type} : Except ε α → Bool
  | .ok _ => true
  | .error _ => false

/-- Catalog-wide mean base cost per kg, used by
`RouteManager.get_fallback_route_data`. -/
def fallback_avg_base_cost : ℚ :=
  (DEMO_ROUTES.map (fun p => p.2.base_cost_per_kg)).sum / (DEMO_ROUTES.length : ℚ)

/-- `RouteManager.get_fallback_route_data`: a synthetic route from catalog
averages (distances rounded to integers, cost to cents), complexity
`"moderate"`, flagged `is_fallback`. -/
def get_fallback_route_data (origin_city destination_city : String) : RouteData :=
  { origin := ⟨origin_city, "XX", "00000"⟩,
    destination := ⟨destination_city, "XX", "00000"⟩,
    air_distance_km := ((round fallback_avg_air : ℤ) : ℚ),
    ground_distance_km := ((round fallback_avg_ground : ℤ) : ℚ),
    base_cost_per_kg := roundTo 2 fallback_avg_base_cost,
    route_complexity := "moderate",
    is_fallback := true }

/-- `QuoteGenerator._validate_quote_inputs`, in source check order.  The
Python `isinstance` checks are vacuous in the typed model; the truthiness
test `not origin_city` is subsumed by the stripped-emptiness test. -/
def validate_quote_inputs (origin_city destination_city : String)
    (weight_kg : ℚ) : Except String Unit :=
  if pyStrip origin_city = "" then .error "Origin city must be a non-empty string"
  else if pyStrip destination_city = "" then
    .error "Destination city must be a non-empty string"
  else if pyLower (pyStrip origin_city) = pyLower (pyStrip destination_city) then
    .error "Origin and destination cities cannot be the same"
  else if weight_kg ≤ 0 then .error "Weight must be a positive number"
  else if 70 < weight_kg then .error "Weight cannot exceed 70kg for standard UPS services"
  else .ok ()

/-- One quote dict as assembled in `generate_shipping_quotes` (the
tracking/insurance/signature flags and the later eco-badge decoration are
presentation-only and not modelled here; the badge writes are covered by
the heap model below). -/
structure Quote where
  service_key : String
  service_name : String
  service_code : String
  commitment_time : String
  eta_hours : ℚ
  cost_usd : ℚ
  carbon_breakdown : CarbonBreakdown
  priority_level : ℕ
deriving DecidableEq, Repr

/-- The order of `quotes.sort(key=lambda q: (eta_hours, total_co2_kg,
cost_usd))`: lexicographic on that triple. -/
def quote_sort_rel (a b : Quote) : Prop :=
  a.eta_hours < b.eta_hours ∨
    (a.eta_hours = b.eta_hours ∧
      (a.carbon_breakdown.total_co2_kg < b.carbon_breakdown.total_co2_kg ∨
        (a.carbon_breakdown.total_co2_kg = b.carbon_breakdown.total_co2_kg ∧
          a.cost_usd ≤ b.cost_usd)))

instance : DecidableRel quote_sort_rel := fun a b => by
  unfold quote_sort_rel; infer_instance

instance : IsTotal Quote quote_sort_rel := ⟨by
  intro a b
  unfold quote_sort_rel
  rcases lt_trichotomy a.eta_hours b.eta_hours with h | h | h
  · exact Or.inl (Or.inl h)
  · rcases lt_trichotomy a.carbon_breakdown.total_co2_kg b.carbon_breakdown.total_co2_kg
      with h2 | h2 | h2
    · exact Or.inl (Or.inr ⟨h, Or.inl h2⟩)
    · rcases le_total a.cost_usd b.cost_usd with h3 | h3
      · exact Or.inl (Or.inr ⟨h, Or.inr ⟨h2, h3⟩⟩)
      · exact Or.inr (Or.inr ⟨h.symm, Or.inr ⟨h2.symm, h3⟩⟩)
    · exact Or.inr (Or.inr ⟨h.symm, Or.inl h2⟩)
  · exact Or.inr (Or.inl h)⟩

instance : IsTrans Quote quote_sort_rel := ⟨by
  intro a b c hab hbc
  unfold quote_sort_rel at *
  rcases hab with h1 | ⟨e1, h1⟩ <;> rcases hbc with h2 | ⟨e2, h2⟩
  · exact Or.inl (h1.trans h2)
  · exact Or.inl (e2 ▸ h1)
  · exact Or.inl (e1 ▸ h2)
  · refine Or.inr ⟨e1.trans e2, ?_⟩
    rcases h1 with g1 | ⟨f1, g1⟩ <;> rcases h2 with g2 | ⟨f2, g2⟩
    · exact Or.inl (g1.trans g2)
    · exact Or.inl (f2 ▸ g1)
    · exact Or.inl (f1 ▸ g2)
    · exact Or.inr ⟨f1.trans f2, g1.trans g2⟩⟩

/-- The fields of the result dict of `generate_shipping_quotes` the claims
quantify over (`carbon_comparison`, the summary ranges and the request
metadata are further projections of the same quotes and timestamps). -/
structure QuoteResult where
  quotes : List Quote
  route_key : String
  is_fallback : Bool
  total_quotes : ℕ
deriving Repr

/-- The quote dict literal built per service in the loop of
`generate_shipping_quotes`. -/
def build_quote (service_key : String) (svc : ServiceData) (cost : ℚ)
    (cb : CarbonBreakdown) : Quote :=
  { service_key := service_key, service_name := svc.name, service_code := svc.code,
    commitment_time := svc.commitment, eta_hours := svc.eta_hours,
    cost_usd := cost, carbon_breakdown := cb, priority_level := svc.priority_level }

/-- The per-service quote loop of `generate_shipping_quotes`: cost and
carbon per tier; a tier whose carbon computation raises is skipped,
mirroring the `try/except: continue`. -/
def quote_candidates (route_key : String) (route_data : RouteData)
    (weight_kg : ℚ) : List Quote :=
  UPS_SERVICES.filterMap (fun p =>
    match calculate_carbon_footprint route_key weight_kg p.2 with
    | .ok cb => some (build_quote p.1 p.2
        (calculate_shipping_cost route_data weight_kg p.2 p.1) cb)
    | .error _ => none)

/-- The tail of `generate_shipping_quotes` after route resolution: the
empty-quotes error, the sort by (eta, carbon, cost) and the result
assembly.  Python's stable `list.sort` and `insertionSort` with this
reflexive total order produce identical lists. -/
def assemble_quotes (route_key : String) (route_data : RouteData)
    (weight_kg : ℚ) : Except String QuoteResult :=
  if (quote_candidates route_key route_data weight_kg).isEmpty then
    .error "No valid quotes could be generated"
  else
    .ok { quotes := List.insertionSort quote_sort_rel
            (quote_candidates route_key route_data weight_kg),
          route_key := route_key,
          is_fallback := route_data.is_fallback,
          total_quotes := (quote_candidates route_key route_data weight_kg).length }

/-- `QuoteGenerator.generate_shipping_quotes`: validation, bidirectional
route lookup with the `FALLBACK_<ORIGIN>_<DESTINATION>` synthetic route,
then the per-tier loop and result assembly. -/
def generate_shipping_quotes (origin_city destination_city : String)
    (weight_kg : ℚ) : Except String QuoteResult :=
  match validate_quote_inputs origin_city destination_city weight_kg with
  | .error e => .error e
  | .ok _ =>
    match route_lookup origin_city destination_city with
    | some (k, r) => assemble_quotes k r weight_kg
    | none =>
      assemble_quotes
        ("FALLBACK_" ++ (pyUpper origin_city ++ "_" ++ pyUpper destination_city))
        (get_fallback_route_data origin_city destination_city) weight_kg

lemma dictGet_of_mem {α : Type} (k : String) (v : α) (l : List (String × α))
    (hnd : (l.map Prod.fst).Nodup) (h : (k, v) ∈ l) : dictGet k l = some v := by
  induction l with
  | nil => cases h
  | cons p t ih =>
    obtain ⟨k', v'⟩ := p
    simp only [List.map_cons, List.nodup_cons] at hnd
    rcases List.mem_cons.mp h with heq | hmem
    · obtain ⟨rfl, rfl⟩ : k' = k ∧ v' = v := by
        have := heq.symm
        exact ⟨congrArg Prod.fst this, congrArg Prod.snd this⟩
      unfold dictGet
      rw [if_pos rfl]
    · have hk : k' ≠ k := by
        rintro rfl
        exact hnd.1 (List.mem_map_of_mem Prod.fst hmem)
      unfold dictGet
      rw [if_neg hk]
      exact ih hnd.2 hmem

lemma demo_routes_keys_nodup : (DEMO_ROUTES.map Prod.fst).Nodup := by decide

lemma demo_routes_keys_ne_empty : ∀ x ∈ DEMO_ROUTES.map Prod.fst, x ≠ "" := by decide

lemma resolved_of_key_mem (k : String) (h : k ∈ DEMO_ROUTES.map Prod.fst) :
    ∃ air ground, resolved_distances k = some (air, ground) := by
  obtain ⟨p, hp, hk⟩ := List.mem_map.mp h
  obtain ⟨k0, r0⟩ := p
  cases hk
  refine ⟨r0.air_distance_km, r0.ground_distance_km, ?_⟩
  unfold resolved_distances
  rw [dictGet_of_mem _ _ _ demo_routes_keys_nodup hp]

lemma lookup_key_mem (o d k : String) (r : RouteData)
    (h : route_lookup o d = some (k, r)) : k ∈ DEMO_ROUTES.map Prod.fst := by
  unfold route_lookup at h
  cases hf : find_route_by_cities o d with
  | some p =>
    rw [hf] at h
    obtain ⟨k0, r0⟩ := p
    have hk : k0 = k := congrArg Prod.fst (Option.some.injEq _ _ |>.mp h)
    cases hk
    exact List.mem_map_of_mem Prod.fst (List.mem_of_find?_eq_some hf)
  | none =>
    rw [hf] at h
    cases hg : find_route_by_cities d o with
    | some p =>
      rw [hg] at h
      obtain ⟨k0, r0⟩ := p
      have hk : k0 = k := congrArg Prod.fst (Option.some.injEq _ _ |>.mp h)
      cases hk
      exact List.mem_map_of_mem Prod.fst (List.mem_of_find?_eq_some hg)
    | none =>
      rw [hg] at h
      cases h

lemma isPrefixOf_append_self (l1 l2 : List Char) : l1.isPrefixOf (l1 ++ l2) = true := by
  induction l1 with
  | nil => simp [List.isPrefixOf]
  | cons a t ih => simp [List.isPrefixOf, ih]

lemma fallback_key_startswith (s : String) :
    strStartsWith ("FALLBACK_" ++ s) "FALLBACK_" = true := by
  obtain ⟨l⟩ := s
  show ("FALLBACK_".data).isPrefixOf ("FALLBACK_".data ++ l) = true
  exact isPrefixOf_append_self _ _

lemma fallback_key_head (s : String) :
    ("FALLBACK_" ++ s).data.head? = some 'F' := by
  obtain ⟨l⟩ := s
  rfl

lemma fallback_key_not_catalog (s : String) :
    ("FALLBACK_" ++ s) ∉ DEMO_ROUTES.map Prod.fst := by
  intro hmem
  have h1 : ∀ x ∈ DEMO_ROUTES.map Prod.fst, x.data.head? ≠ some 'F' := by decide
  exact h1 _ hmem (fallback_key_head s)

lemma fallback_key_resolves (s : String) :
    resolved_distances ("FALLBACK_" ++ s) =
      some (fallback_avg_air, fallback_avg_ground) := by
  unfold resolved_distances
  rw [dictGet_eq_none _ _ (fallback_key_not_catalog s),
    if_pos (fallback_key_startswith s)]

lemma fallback_key_ne_empty (s : String) : ("FALLBACK_" ++ s) ≠ "" := by
  obtain ⟨l⟩ := s
  intro h
  have h2 : 'F' :: ("ALLBACK_".data ++ l) = ([] : List Char) := congrArg String.data h
  exact List.cons_ne_nil _ _ h2

lemma carbon_ok (k : String) (w : ℚ) (svc : ServiceData) (air ground : ℚ)
    (hk : k ≠ "") (hw : ¬(w ≤ 0 ∨ 70 < w))
    (hres : resolved_distances k = some (air, ground)) :
    calculate_carbon_footprint k w svc =
      .ok (carbon_breakdown_core air ground k w svc) := by
  unfold calculate_carbon_footprint
  rw [if_neg hk, if_neg hw, hres]

lemma filterMap_eq_map_of_some {α β : Type} (f : α → Option β) (g : α → β)
    (l : List α) (h : ∀ a ∈ l, f a = some (g a)) : l.filterMap f = l.map g := by
  induction l with
  | nil => rfl
  | cons a t ih =>
    rw [List.filterMap_cons, h a (List.mem_cons_self a t), List.map_cons,
      ih (fun x hx => h x (List.mem_cons_of_mem a hx))]

lemma quote_candidates_eq (rk : String) (rd : RouteData) (w : ℚ) (air ground : ℚ)
    (hke : rk ≠ "") (hw : ¬(w ≤ 0 ∨ 70 < w))
    (hres : resolved_distances rk = some (air, ground)) :
    quote_candidates rk rd w = UPS_SERVICES.map (fun p => build_quote p.1 p.2
      (calculate_shipping_cost rd w p.2 p.1)
      (carbon_breakdown_core air ground rk w p.2)) := by
  apply filterMap_eq_map_of_some
  intro p _
  rw [carbon_ok rk w p.2 air ground hke hw hres]

set_option maxRecDepth 4000 in
lemma assemble_ok (rk : String) (rd : RouteData) (w : ℚ) (air ground : ℚ)
    (hke : rk ≠ "") (hw : ¬(w ≤ 0 ∨ 70 < w))
    (hres : resolved_distances rk = some (air, ground)) :
    ∃ res, assemble_quotes rk rd w = .ok res ∧
      res.quotes.length = 6 ∧ res.total_quotes = 6 ∧
      (res.quotes.map (fun q => q.service_key)).Perm (UPS_SERVICES.map Prod.fst) ∧
      res.quotes.Sorted quote_sort_rel := by
  have hq := quote_candidates_eq rk rd w air ground hke hw hres
  unfold assemble_quotes
  rw [hq]
  rw [if_neg (by simp [UPS_SERVICES])]
  refine ⟨_, rfl, ?_, ?_, ?_, ?_⟩
  · rw [(List.perm_insertionSort _ _).length_eq, List.length_map]
    rfl
  · rw [List.length_map]
    rfl
  · have hmapmap : (UPS_SERVICES.map (fun p => build_quote p.1 p.2
        (calculate_shipping_cost rd w p.2 p.1)
        (carbon_breakdown_core air ground rk w p.2))).map (fun q => q.service_key) =
        UPS_SERVICES.map Prod.fst := by
      rw [List.map_map]
      exact List.map_congr_left fun p _ => rfl
    have hperm := List.Perm.map (fun q : Quote => q.service_key)
      (List.perm_insertionSort quote_sort_rel (UPS_SERVICES.map (fun p =>
        build_quote p.1 p.2 (calculate_shipping_cost rd w p.2 p.1)
          (carbon_breakdown_core air ground rk w p.2))))
    rw [hmapmap] at hperm
    exact hperm
  · exact List.sorted_insertionSort _ _

/-- Shared pipeline lemma: on every valid input, `generate_shipping_quotes`
succeeds with one quote per tier, sorted by the (eta, carbon, cost) key. -/
lemma generate_ok (o d : String) (w : ℚ)
    (h1 : pyStrip o ≠ "") (h2 : pyStrip d ≠ "")
    (h3 : pyLower (pyStrip o) ≠ pyLower (pyStrip d))
    (h4 : 0 < w) (h5 : w ≤ 70) :
    ∃ res, generate_shipping_quotes o d w = .ok res ∧
      res.quotes.length = 6 ∧ res.total_quotes = 6 ∧
      (res.quotes.map (fun q => q.service_key)).Perm (UPS_SERVICES.map Prod.fst) ∧
      res.quotes.Sorted quote_sort_rel := by
  have hval : validate_quote_inputs o d w = .ok () := by
    unfold validate_quote_inputs
    rw [if_neg h1, if_neg h2, if_neg h3, if_neg (not_le.mpr h4), if_neg (not_lt.mpr h5)]
  have hw : ¬(w ≤ 0 ∨ 70 < w) := by push_neg; exact ⟨h4, h5⟩
  unfold generate_shipping_quotes
  rw [hval]
  cases hl : route_lookup o d with
  | some p =>
    obtain ⟨k, r⟩ := p
    have hk := lookup_key_mem o d k r hl
    obtain ⟨air, ground, hres⟩ := resolved_of_key_mem k hk
    exact assemble_ok k r w air ground (demo_routes_keys_ne_empty k hk) hw hres
  | none =>
    exact assemble_ok _ _ w _ _ (fallback_key_ne_empty _) hw (fallback_key_resolves _)

lemma generate_error_of (o d : String) (w : ℚ)
    (h : w ≤ 0 ∨ 70 < w ∨ pyStrip o = "" ∨ pyStrip d = "" ∨
      pyLower (pyStrip o) = pyLower (pyStrip d)) :
    except_is_ok (generate_shipping_quotes o d w) = false := by
  unfold generate_shipping_quotes validate_quote_inputs
  split_ifs with a b c d' e <;> first | rfl | tauto

/-- C5.  Every valid request (weight in (0,70], distinct non-empty cities)
yields exactly 6 quotes, one per tier, listed in non-decreasing
`eta_hours` order with ties broken by `total_co2_kg` then `cost_usd`. -/
theorem generate_quotes_six_sorted (o d : String) (w : ℚ)
    (h1 : pyStrip o ≠ "") (h2 : pyStrip d ≠ "")
    (h3 : pyLower (pyStrip o) ≠ pyLower (pyStrip d))
    (h4 : 0 < w) (h5 : w ≤ 70) :
    ∃ res, generate_shipping_quotes o d w = .ok res ∧
      res.quotes.length = 6 ∧ res.total_quotes = 6 ∧
      (res.quotes.map (fun q => q.service_key)).Perm (UPS_SERVICES.map Prod.fst) ∧
      res.quotes.Sorted quote_sort_rel :=
  generate_ok o d w h1 h2 h3 h4 h5

/-- Witness for C5 at New York → Los Angeles, 5 kg. -/
theorem generate_quotes_six_sorted_witness :
    (pyStrip "New York" ≠ "" ∧ pyStrip "Los Angeles" ≠ "" ∧
      pyLower (pyStrip "New York") ≠ pyLower (pyStrip "Los Angeles") ∧
      (0:ℚ) < 5 ∧ (5:ℚ) ≤ 70) ∧
    (∃ res, generate_shipping_quotes "New York" "Los Angeles" 5 = .ok res ∧
      res.quotes.length = 6 ∧ res.total_quotes = 6 ∧
      (res.quotes.map (fun q => q.service_key)).Perm (UPS_SERVICES.map Prod.fst) ∧
      res.quotes.Sorted quote_sort_rel) :=
  ⟨⟨by decide, by decide, by decide, by norm_num, by norm_num⟩,
    generate_quotes_six_sorted "New York" "Los Angeles" 5
      (by decide) (by decide) (by decide) (by norm_num) (by norm_num)⟩

/-- C6, amended.  `generate_shipping_quotes` raises before computing any
quote exactly when the weight is outside (0,70], a city is empty or
whitespace-only after stripping, or the stripped cities are equal
case-insensitively; weight exactly 70 with valid cities succeeds and
produces 6 quotes. -/
theorem generate_quotes_error_iff :
    (∀ (o d : String) (w : ℚ),
      except_is_ok (generate_shipping_quotes o d w) = false ↔
        (w ≤ 0 ∨ 70 < w ∨ pyStrip o = "" ∨ pyStrip d = "" ∨
          pyLower (pyStrip o) = pyLower (pyStrip d))) ∧
    (∃ res, generate_shipping_quotes "New York" "Los Angeles" 70 = .ok res ∧
      res.quotes.length = 6) := by
  constructor
  · intro o d w
    constructor
    · intro herr
      by_contra hn
      push_neg at hn
      obtain ⟨hw0, hw70, ho, hd, hod⟩ := hn
      obtain ⟨res, hres, -, -, -, -⟩ := generate_ok o d w ho hd hod hw0 hw70
      rw [hres] at herr
      exact Bool.noConfusion herr
    · exact generate_error_of o d w
  · obtain ⟨res, hres, h6, -, -, -⟩ :=
      generate_ok "New York" "Los Angeles" 70 (by decide) (by decide) (by decide)
        (by norm_num) (by norm_num)
    exact ⟨res, hres, h6⟩

/-- C6, counterexample.  With a whitespace-only origin `" "` the code
raises (the origin strips to empty), while the claim's conditions — weight
outside (0,70], a city equal to the empty string, or the cities equal
case-insensitively — all fail, so the claim's "only if" direction is
false as stated. -/
theorem validate_whitespace_counterexample :
    except_is_ok (generate_shipping_quotes " " "Boston" 1) = false ∧
    ¬((1:ℚ) ≤ 0 ∨ 70 < (1:ℚ) ∨ (" " : String) = "" ∨ ("Boston" : String) = "" ∨
      pyLower " " = pyLower "Boston") := by
  constructor
  · rfl
  · push_neg
    exact ⟨by norm_num, by norm_num, by decide, by decide, by decide⟩

/-! ### Mutable-store model of the quote pipeline (frame property)

Python dicts are mutable objects; whether a call mutates the shared
reference catalogs is a property of which object each assignment statement
hits.  The model below gives the pipeline an explicit object store:
addresses are allocation-ordered naturals, the catalogs live at
pre-existing addresses, `route_data.copy()` is an allocation, and each
dict assignment (`swapped_data["origin"] = ...`, `quote["eco_badge"] =
...`) is a `write`.  The computations themselves are delegated to the
pure functions above. -/

/-- A heap object: a route dict, a service dict, or a quote dict (the
quote's badge fields start absent and are written by
`_add_eco_badges_to_quotes`). -/
inductive HObj where
  | routeObj (r : RouteData)
  | serviceObj (s : ServiceData)
  | quoteObj (q : Quote) (eco_badge : Option String) (carbon_savings : Option ℚ)

/-- An allocation-ordered object store. -/
structure Heap where
  next : ℕ
  mem : ℕ → Option HObj

/-- Allocate a fresh object (Python: constructing a dict, or `.copy()`). -/
def Heap.alloc (h : Heap) (o : HObj) : Heap × ℕ :=
  (⟨h.next + 1, fun a => if a = h.next then some o else h.mem a⟩, h.next)

/-- Overwrite the object at an address (Python: item assignment on the
dict that lives there). -/
def Heap.write (h : Heap) (a : ℕ) (o : HObj) : Heap :=
  ⟨h.next, fun x => if x = a then some o else h.mem x⟩

/-- Read a route dict. -/
def Heap.readRoute (h : Heap) (a : ℕ) : Option RouteData :=
  match h.mem a with
  | some (.routeObj r) => some r
  | _ => none

/-- Read a service dict. -/
def Heap.readService (h : Heap) (a : ℕ) : Option ServiceData :=
  match h.mem a with
  | some (.serviceObj s) => some s
  | _ => none

/-- `UPSDataLookup.find_route_by_cities` over the store: scan the catalog
references, reading each route; an address not holding a route never
matches. -/
def find_route_by_cities_H (h : Heap) (routesC : List (String × ℕ))
    (o d : String) : Option (String × ℕ) :=
  routesC.find? (fun p =>
    match h.readRoute p.2 with
    | some r => pyLower r.origin.city == pyLower o && pyLower r.destination.city == pyLower d
    | none => false)

/-- `RouteManager._swap_route_direction` over the store: `.copy()` is an
allocation, and the swapped tuple assignment writes to the copy only.  An
address not holding a route is returned unchanged (unreachable when the
catalog references are well formed). -/
def swap_route_direction_H (h : Heap) (a : ℕ) : Heap × ℕ :=
  match h.readRoute a with
  | some r =>
    match h.alloc (.routeObj r) with
    | (h1, b) => (h1.write b (.routeObj (swap_route_direction r)), b)
  | none => (h, a)

/-- `RouteManager.route_lookup` over the store.  A direct match returns
the catalog object itself (a shared reference, as in Python); a reversed
match returns a swapped copy. -/
def route_lookup_H (h : Heap) (routesC : List (String × ℕ)) (o d : String) :
    Heap × Option (String × ℕ) :=
  match find_route_by_cities_H h routesC o d with
  | some (k, a) => (h, some (k, a))
  | none =>
    match find_route_by_cities_H h routesC d o with
    | some (k, a) =>
      match swap_route_direction_H h a with
      | (h1, b) => (h1, some (k, b))
    | none => (h, none)

/-- `RouteManager.get_fallback_route_data` over the store: reads every
catalog route, builds a fresh dict from the averages. -/
def get_fallback_route_data_H (h : Heap) (routesC : List (String × ℕ))
    (o d : String) : Heap × ℕ :=
  let rs := routesC.filterMap (fun p => h.readRoute p.2)
  h.alloc (.routeObj
    { origin := ⟨o, "XX", "00000"⟩,
      destination := ⟨d, "XX", "00000"⟩,
      air_distance_km := ((round ((rs.map (fun r => r.air_distance_km)).sum /
        (rs.length : ℚ)) : ℤ) : ℚ),
      ground_distance_km := ((round ((rs.map (fun r => r.ground_distance_km)).sum /
        (rs.length : ℚ)) : ℤ) : ℚ),
      base_cost_per_kg := roundTo 2 ((rs.map (fun r => r.base_cost_per_kg)).sum /
        (rs.length : ℚ)),
      route_complexity := "moderate",
      is_fallback := true })

/-- The `carbon_results` list of `CarbonComparison.carbon_comparison`:
service name and total kg CO2 per tier, failed tiers skipped. -/
def carbon_comparison_results (rk : String) (w : ℚ) : List (String × ℚ) :=
  UPS_SERVICES.filterMap (fun p =>
    match calculate_carbon_footprint rk w p.2 with
    | .ok cb => some (p.2.name, cb.total_co2_kg)
    | .error _ => none)

/-- `CarbonComparison._assign_eco_badge`. -/
def assign_eco_badge (carbon_kg min_c max_c avg_c : ℚ) : String :=
  if carbon_kg = min_c then "most_eco_friendly"
  else if carbon_kg ≤ avg_c then "eco_friendly"
  else if carbon_kg ≥ max_c * (9/10) then "high_emission"
  else "standard"

/-- The per-service badge and savings percentage that
`_add_eco_badges_to_quotes` attaches: the comparison statistics plus the
`(max-c)/max` savings, with the `("standard", 0)` default for a service
name absent from the comparison results. -/
def badge_lookup (rk : String) (w : ℚ) (service_name : String) : String × ℚ :=
  match carbon_comparison_results rk w with
  | [] => ("standard", 0)
  | (n0, c0) :: rest =>
    let vals := c0 :: rest.map Prod.snd
    let mx := vals.foldl max c0
    let mn := vals.foldl min c0
    let avg := vals.sum / (vals.length : ℚ)
    match ((n0, c0) :: rest).find? (fun q => q.1 == service_name) with
    | some (_, c) => (assign_eco_badge c mn mx avg,
        roundTo 1 (if 0 < mx then (mx - c) / mx * 100 else 0))
    | none => ("standard", 0)

/-- The (eta, carbon, cost) sort key of the quote at an address. -/
def quote_addr_key (h : Heap) (a : ℕ) : ℚ × ℚ × ℚ :=
  match h.mem a with
  | some (.quoteObj q _ _) => (q.eta_hours, q.carbon_breakdown.total_co2_kg, q.cost_usd)
  | _ => (0, 0, 0)

/-- `quotes.sort` over quote references: lexicographic on the key read
from the store. -/
def addr_sort_rel (h : Heap) (a b : ℕ) : Prop :=
  (quote_addr_key h a).1 < (quote_addr_key h b).1 ∨
    ((quote_addr_key h a).1 = (quote_addr_key h b).1 ∧
      ((quote_addr_key h a).2.1 < (quote_addr_key h b).2.1 ∨
        ((quote_addr_key h a).2.1 = (quote_addr_key h b).2.1 ∧
          (quote_addr_key h a).2.2 ≤ (quote_addr_key h b).2.2)))

instance (h : Heap) : DecidableRel (addr_sort_rel h) := fun a b => by
  unfold addr_sort_rel; infer_instance

/-- One iteration of the quote loop over the store: read the service and
the route, compute cost and carbon with the pure engines, and allocate the
quote dict; a failed tier allocates nothing. -/
def quote_loop_step (rk : String) (ra : ℕ) (w : ℚ)
    (st : Heap × List ℕ) (p : String × ℕ) : Heap × List ℕ :=
  match st.1.readService p.2 with
  | none => st
  | some svc =>
    match st.1.readRoute ra with
    | none => st
    | some rd =>
      match calculate_carbon_footprint rk w svc with
      | .error _ => st
      | .ok cb =>
        match st.1.alloc (.quoteObj (build_quote p.1 svc
            (calculate_shipping_cost rd w svc p.1) cb) none none) with
        | (h2, qa) => (h2, st.2 ++ [qa])

/-- The quote loop of `generate_shipping_quotes` over the store. -/
def quote_loop (rk : String) (ra : ℕ) (w : ℚ) (servicesC : List (String × ℕ))
    (st : Heap × List ℕ) : Heap × List ℕ :=
  servicesC.foldl (quote_loop_step rk ra w) st

/-- `_add_eco_badges_to_quotes` over the store: when the carbon comparison
produced results, write the badge fields into each quote dict; when it
failed (empty results), the function returns without touching any
quote. -/
def badge_write_step (rk : String) (w : ℚ) (hh : Heap) (qa : ℕ) : Heap :=
  match hh.mem qa with
  | some (.quoteObj q _ _) =>
    hh.write qa (.quoteObj q (some (badge_lookup rk w q.service_name).1)
      (some (badge_lookup rk w q.service_name).2))
  | _ => hh

/-- The badge write loop fires only when the comparison produced
results. -/
def badge_writes (rk : String) (w : ℚ) (addrs : List ℕ) (h : Heap) : Heap :=
  match carbon_comparison_results rk w with
  | [] => h
  | _ :: _ => addrs.foldl (badge_write_step rk w) h

/-- The tail of `generate_shipping_quotes` after route resolution, over
the store: the quote loop, the empty-quotes error, the sort of the quote
reference list, and the badge writes. -/
def generate_tail_H (h : Heap) (rk : String) (ra : ℕ) (w : ℚ)
    (servicesC : List (String × ℕ)) : Heap × Except String (List ℕ) :=
  match quote_loop rk ra w servicesC (h, []) with
  | (h2, quoteAddrs) =>
    if quoteAddrs.isEmpty then (h2, .error "No valid quotes could be generated")
    else
      (badge_writes rk w (List.insertionSort (addr_sort_rel h2) quoteAddrs) h2,
        .ok (List.insertionSort (addr_sort_rel h2) quoteAddrs))

/-- `QuoteGenerator.generate_shipping_quotes` over the store. -/
def generate_shipping_quotes_H (h : Heap) (routesC servicesC : List (String × ℕ))
    (o d : String) (w : ℚ) : Heap × Except String (List ℕ) :=
  match validate_quote_inputs o d w with
  | .error e => (h, .error e)
  | .ok _ =>
    match route_lookup_H h routesC o d with
    | (h1, some (k, ra)) => generate_tail_H h1 k ra w servicesC
    | (h1, none) =>
      match get_fallback_route_data_H h1 routesC o d with
      | (h2, ra) =>
        generate_tail_H h2 ("FALLBACK_" ++ (pyUpper o ++ "_" ++ pyUpper d)) ra w servicesC

/-- Frame predicate: every address below the watermark `n` still holds
exactly what it held in `h`, and the allocator never re-issues an address
below `n`. -/
def PreservedBelow (n : ℕ) (h h' : Heap) : Prop :=
  n ≤ h'.next ∧ ∀ a, a < n → h'.mem a = h.mem a

lemma preservedBelow_refl (h : Heap) : PreservedBelow h.next h h :=
  ⟨le_refl _, fun _ _ => rfl⟩

lemma preservedBelow_chain {n : ℕ} {h h1 h2 : Heap}
    (p1 : PreservedBelow n h h1) (p2 : PreservedBelow h1.next h1 h2) :
    PreservedBelow n h h2 :=
  ⟨le_trans p1.1 p2.1, fun a ha => (p2.2 a (lt_of_lt_of_le ha p1.1)).trans (p1.2 a ha)⟩

lemma preservedBelow_alloc {n : ℕ} {h h1 : Heap} (p : PreservedBelow n h h1)
    (o : HObj) : PreservedBelow n h (h1.alloc o).1 := by
  obtain ⟨hle, hmem⟩ := p
  refine ⟨le_trans hle (Nat.le_succ _), fun a ha => ?_⟩
  show (if a = h1.next then some o else h1.mem a) = h.mem a
  rw [if_neg (by omega : a ≠ h1.next)]
  exact hmem a ha

lemma preservedBelow_write {n : ℕ} {h h1 : Heap} (p : PreservedBelow n h h1)
    (a : ℕ) (ha : n ≤ a) (o : HObj) : PreservedBelow n h (h1.write a o) := by
  obtain ⟨hle, hmem⟩ := p
  refine ⟨hle, fun x hx => ?_⟩
  show (if x = a then some o else h1.mem x) = h.mem x
  rw [if_neg (by omega : x ≠ a)]
  exact hmem x hx

lemma swap_H_preserves (h : Heap) (a : ℕ) :
    PreservedBelow h.next h (swap_route_direction_H h a).1 := by
  unfold swap_route_direction_H
  split
  · split
    rename_i h1 b heq
    have e1 : _ = h1 := congrArg Prod.fst heq
    have e2 : _ = b := congrArg Prod.snd heq
    rw [← e1, ← e2]
    exact preservedBelow_write (preservedBelow_alloc (preservedBelow_refl h) _)
      _ (le_refl h.next) _
  · exact preservedBelow_refl h

lemma route_lookup_H_preserves (h : Heap) (routesC : List (String × ℕ))
    (o d : String) : PreservedBelow h.next h (route_lookup_H h routesC o d).1 := by
  unfold route_lookup_H
  split
  · exact preservedBelow_refl h
  · split
    · rename_i k a heq2
      split
      rename_i h1 b heq3
      have hsw := swap_H_preserves h a
      rw [heq3] at hsw
      exact hsw
    · exact preservedBelow_refl h

lemma fallback_H_preserves (h : Heap) (routesC : List (String × ℕ)) (o d : String) :
    PreservedBelow h.next h (get_fallback_route_data_H h routesC o d).1 :=
  preservedBelow_alloc (preservedBelow_refl h) _

lemma quote_loop_step_preserves (rk : String) (ra : ℕ) (w : ℚ) (h0 : Heap)
    (st : Heap × List ℕ) (p : String × ℕ)
    (hst : PreservedBelow h0.next h0 st.1 ∧ ∀ qa ∈ st.2, h0.next ≤ qa) :
    PreservedBelow h0.next h0 (quote_loop_step rk ra w st p).1 ∧
      ∀ qa ∈ (quote_loop_step rk ra w st p).2, h0.next ≤ qa := by
  unfold quote_loop_step
  split
  · exact hst
  · split
    · exact hst
    · split
      · exact hst
      · split
        rename_i h2 qa heq
        have e1 : _ = h2 := congrArg Prod.fst heq
        have e2 : _ = qa := congrArg Prod.snd heq
        constructor
        · rw [← e1]
          exact preservedBelow_alloc hst.1 _
        · intro x hx
          rcases List.mem_append.mp hx with hmem | hmem
          · exact hst.2 x hmem
          · have hxq : x = qa := by simpa using hmem
            rw [hxq, ← e2]
            exact hst.1.1

lemma quote_loop_preserves (rk : String) (ra : ℕ) (w : ℚ) (h0 : Heap)
    (l : List (String × ℕ)) (st : Heap × List ℕ)
    (hst : PreservedBelow h0.next h0 st.1 ∧ ∀ qa ∈ st.2, h0.next ≤ qa) :
    PreservedBelow h0.next h0 (quote_loop rk ra w l st).1 ∧
      ∀ qa ∈ (quote_loop rk ra w l st).2, h0.next ≤ qa := by
  induction l generalizing st with
  | nil => exact hst
  | cons p t ih =>
    exact ih (quote_loop_step rk ra w st p) (quote_loop_step_preserves rk ra w h0 st p hst)

lemma badge_write_step_preserves (rk : String) (w : ℚ) {h0 hh : Heap} (qa : ℕ)
    (hqa : h0.next ≤ qa) (hp : PreservedBelow h0.next h0 hh) :
    PreservedBelow h0.next h0 (badge_write_step rk w hh qa) := by
  unfold badge_write_step
  split
  · exact preservedBelow_write hp qa hqa _
  · exact hp

lemma badge_fold_preserves (rk : String) (w : ℚ) (h0 : Heap) :
    ∀ (addrs : List ℕ) (h2 : Heap), (∀ qa ∈ addrs, h0.next ≤ qa) →
      PreservedBelow h0.next h0 h2 →
      PreservedBelow h0.next h0 (addrs.foldl (badge_write_step rk w) h2) := by
  intro addrs
  induction addrs with
  | nil => exact fun h2 _ hp => hp
  | cons qa t ih =>
    intro h2 haddrs hp
    exact ih _ (fun x hx => haddrs x (List.mem_cons_of_mem qa hx))
      (badge_write_step_preserves rk w qa (haddrs qa (List.mem_cons_self qa t)) hp)

lemma badge_writes_preserves (rk : String) (w : ℚ) (h0 h2 : Heap)
    (addrs : List ℕ) (haddrs : ∀ qa ∈ addrs, h0.next ≤ qa)
    (hp : PreservedBelow h0.next h0 h2) :
    PreservedBelow h0.next h0 (badge_writes rk w addrs h2) := by
  unfold badge_writes
  split
  · exact hp
  · exact badge_fold_preserves rk w h0 addrs h2 haddrs hp

lemma generate_tail_H_preserves (h : Heap) (rk : String) (ra : ℕ) (w : ℚ)
    (servicesC : List (String × ℕ)) :
    PreservedBelow h.next h (generate_tail_H h rk ra w servicesC).1 := by
  unfold generate_tail_H
  have hloop := quote_loop_preserves rk ra w h servicesC (h, [])
    ⟨preservedBelow_refl h, by intro qa hqa; cases hqa⟩
  split
  rename_i h2 quoteAddrs heq
  rw [heq] at hloop
  by_cases he : quoteAddrs.isEmpty
  · rw [if_pos he]
    exact hloop.1
  · rw [if_neg he]
    refine badge_writes_preserves rk w h h2 _ ?_ hloop.1
    intro qa hqa
    exact hloop.2 qa
      ((List.perm_insertionSort (addr_sort_rel h2) quoteAddrs).mem_iff.mp hqa)

/-- C9.  No quote-generation operation writes to any pre-existing object:
after `generate_shipping_quotes` (including reversed-direction matches,
which swap fields on a fresh copy, fallback synthesis, which allocates a
fresh route dict, and the eco-badge writes, which hit the freshly
allocated quote dicts) and after `route_lookup`, every address below the
allocation watermark — in particular every `DEMO_ROUTES` and
`UPS_SERVICES` catalog object resident in the store — holds exactly its
old value.  (`WEIGHT_CATEGORIES` is only ever read, through the pure
`WEIGHT_CATEGORIES` table of the cost engine.) -/
theorem generate_preserves_catalogs (h : Heap)
    (routesC servicesC : List (String × ℕ)) (o d : String) (w : ℚ) :
    (∀ a, a < h.next →
      ((generate_shipping_quotes_H h routesC servicesC o d w).1).mem a = h.mem a) ∧
    (∀ a, a < h.next →
      ((route_lookup_H h routesC o d).1).mem a = h.mem a) := by
  constructor
  · intro a ha
    unfold generate_shipping_quotes_H
    split
    · rfl
    · have hlk := route_lookup_H_preserves h routesC o d
      split
      · rename_i h1 k ra heq
        rw [heq] at hlk
        exact (preservedBelow_chain hlk
          (generate_tail_H_preserves h1 k ra w servicesC)).2 a ha
      · rename_i h1 heq
        rw [heq] at hlk
        split
        rename_i h2 ra heq2
        have hfb := fallback_H_preserves h1 routesC o d
        rw [heq2] at hfb
        exact (preservedBelow_chain hlk (preservedBelow_chain hfb
          (generate_tail_H_preserves h2 _ ra w servicesC))).2 a ha
  · intro a ha
    exact (route_lookup_H_preserves h routesC o d).2 a ha

/-- A two-object example store: the NYC-LA route at address 0 and the UPS
Ground service at address 1. -/
def example_heap : Heap :=
  { next := 2,
    mem := fun a =>
      if a = 0 then some (.routeObj
        { origin := ⟨"New York", "NY", "10001"⟩,
          destination := ⟨"Los Angeles", "CA", "90210"⟩,
          air_distance_km := 3944, ground_distance_km := 4501,
          base_cost_per_kg := 850/100, route_complexity := "complex" })
      else if a = 1 then some (.serviceObj ups_ground)
      else none }

/-- Witness for C9: the catalog route object at address 0 of the example
store is untouched by a full quote generation. -/
theorem generate_preserves_catalogs_witness :
    (0 : ℕ) < example_heap.next ∧
    ((generate_shipping_quotes_H example_heap [("NYC_LA", 0)] [("UPS_GROUND", 1)]
        "New York" "Los Angeles" 5).1).mem 0 = example_heap.mem 0 :=
  ⟨by decide,
    (generate_preserves_catalogs example_heap [("NYC_LA", 0)] [("UPS_GROUND", 1)]
      "New York" "Los Angeles" 5).1 0 (by decide)⟩

end EcoShip
